import Mathlib

/-!
Verification of the AstroShield API service (src/api/index.py): the schema
layer (pydantic request/response models), the five route handlers, and the
dispatch boundary (routing, validation-error mapping, CORS headers).

The handlers are pure apart from reading the current UTC time; we pass the
clock explicitly.  Consecutive datetime.utcnow() reads inside one handler
invocation are modelled as one and the same instant.  Python floats appear
only as the literal likelihood/confidence scores and are modelled as
rationals.
-/

namespace AstroShield

/-- A Python value as it appears in request/response payloads
(str / int / float / bool / None / list / dict with string keys). -/
inductive PyVal where
  | str (s : String)
  | int (n : Int)
  | rat (q : ℚ)
  | bool (b : Bool)
  | none
  | list (xs : List PyVal)
  | dict (kvs : List (String × PyVal))

/-- A naive Python datetime as returned by datetime.utcnow():
year, month, day, hour, minute, second, microsecond. -/
structure PyDateTime where
  year : Nat
  month : Nat
  day : Nat
  hour : Nat
  minute : Nat
  second : Nat
  microsecond : Nat
deriving DecidableEq, Repr

/-- The decimal digit character for n % 10. -/
def digitChar (n : Nat) : Char := Char.ofNat (48 + n % 10)

/-- Fixed-width zero-padded decimal rendering (faithful to Python's
zero-padded fields for values inside datetime's documented ranges,
which datetime.utcnow() always satisfies). -/
def pad2 (n : Nat) : List Char := [digitChar (n / 10), digitChar n]

def pad4 (n : Nat) : List Char :=
  [digitChar (n / 1000), digitChar (n / 100), digitChar (n / 10), digitChar n]

def pad6 (n : Nat) : List Char :=
  [digitChar (n / 100000), digitChar (n / 10000), digitChar (n / 1000),
   digitChar (n / 100), digitChar (n / 10), digitChar n]

/-- str(datetime): the isoformat with a space separator,
"YYYY-MM-DD HH:MM:SS" followed by ".ffffff" when microsecond is nonzero. -/
def pyDatetimeStr (d : PyDateTime) : String :=
  String.mk (pad4 d.year ++ ('-' :: pad2 d.month) ++ ('-' :: pad2 d.day) ++
    (' ' :: pad2 d.hour) ++ (':' :: pad2 d.minute) ++ (':' :: pad2 d.second) ++
    (if d.microsecond = 0 then [] else '.' :: pad6 d.microsecond))

/-- The clock observed by one handler invocation: the current UTC instant
and the decimal rendering of datetime.utcnow().timestamp() (the epoch
seconds float, whose exact digits are irrelevant to every claim). -/
structure Clock where
  now : PyDateTime
  epochStr : String

/-- Documented field ranges of a Python datetime (utcnow() always
satisfies them); what the fixed-width rendering above relies on. -/
def PyDateTime.InRange (d : PyDateTime) : Prop :=
  d.year < 10000 ∧ d.month < 100 ∧ d.day < 100 ∧ d.hour < 100 ∧
  d.minute < 100 ∧ d.second < 100 ∧ d.microsecond < 1000000

instance (d : PyDateTime) : Decidable d.InRange := by
  unfold PyDateTime.InRange; infer_instance

/-! ## Schema layer: request/response models (pydantic BaseModel classes) -/

/-- class VerifyRequest: data : Dict[str, Any], required. -/
structure VerifyRequest where
  data : List (String × PyVal)

/-- class VerifyResponse: verified : bool, message : str,
details : Optional[Dict[str, Any]]. -/
structure VerifyResponse where
  verified : Bool
  message : String
  details : Option (List (String × PyVal))

/-- class EncryptRequest: value : str, min_length=1. -/
structure EncryptRequest where
  value : String

/-- class EncryptResponse: encryptedValue : str, timestamp : str. -/
structure EncryptResponse where
  encryptedValue : String
  timestamp : String

/-- class AnalyzeRequest: data : str (min_length=1),
analysisMode : str (default "orbital_prediction"). -/
structure AnalyzeRequest where
  data : String
  analysisMode : String

/-- class AnalysisResult: likelihood, confidence : float in [0,1],
predictions : List[Dict[str, Any]], recommendations : List[str]. -/
structure AnalysisResult where
  likelihood : ℚ
  confidence : ℚ
  predictions : List (List (String × PyVal))
  recommendations : List String

/-- class AnalyzeResponse: analysisResult : AnalysisResult, timestamp : str. -/
structure AnalyzeResponse where
  analysisResult : AnalysisResult
  timestamp : String

/-- A pydantic validation failure: the offending field and the violated
rule (missing required field, type mismatch, min-length, numeric bound). -/
inductive FieldError where
  | missing (field : String)
  | typeError (field : String) (expected : String)
  | minLength (field : String) (min : Nat)
  | notGe (field : String) (bound : ℚ)
  | notLe (field : String) (bound : ℚ)
deriving DecidableEq, Repr

/-- Validator for VerifyRequest: the body must be a mapping with a
"data" key holding a mapping of string keys to arbitrary values. -/
def validateVerifyRequest : PyVal → Except (List FieldError) VerifyRequest
  | .dict kvs =>
    match kvs.lookup "data" with
    | some (.dict d) => .ok ⟨d⟩
    | some _ => .error [.typeError "data" "dict"]
    | Option.none => .error [.missing "data"]
  | _ => .error [.typeError "__root__" "dict"]

/-- A required string field carrying the min_length=1 constraint (the rule
shared by EncryptRequest.value and AnalyzeRequest.data). -/
def strMinLen1Field (kvs : List (String × PyVal)) (key : String) :
    Except (List FieldError) String :=
  match kvs.lookup key with
  | some (.str s) => if 1 ≤ s.length then .ok s else .error [.minLength key 1]
  | some _ => .error [.typeError key "str"]
  | Option.none => .error [.missing key]

/-- Validator for EncryptRequest: "value" must be a string of length >= 1. -/
def validateEncryptRequest : PyVal → Except (List FieldError) EncryptRequest
  | .dict kvs =>
    match strMinLen1Field kvs "value" with
    | .ok v => .ok ⟨v⟩
    | .error es => .error es
  | _ => .error [.typeError "__root__" "dict"]

/-- The analysisMode field: an optional string defaulting to
"orbital_prediction". -/
def modeField (kvs : List (String × PyVal)) : Except (List FieldError) String :=
  match kvs.lookup "analysisMode" with
  | some (.str m) => .ok m
  | some _ => .error [.typeError "analysisMode" "str"]
  | Option.none => .ok "orbital_prediction"

/-- Validator for AnalyzeRequest: "data" a string of length >= 1;
"analysisMode" an optional string defaulting to "orbital_prediction".
Errors of the two fields are collected, as pydantic does. -/
def validateAnalyzeRequest : PyVal → Except (List FieldError) AnalyzeRequest
  | .dict kvs =>
    match strMinLen1Field kvs "data", modeField kvs with
    | .ok d, .ok m => .ok ⟨d, m⟩
    | .error e1, .error e2 => .error (e1 ++ e2)
    | .error e1, .ok _ => .error e1
    | .ok _, .error e2 => .error e2
  | _ => .error [.typeError "__root__" "dict"]

/-- A float field (int values coerce, as in pydantic). -/
def asFloat : PyVal → Option ℚ
  | .rat q => some q
  | .int n => some (n : ℚ)
  | _ => Option.none

/-- A float field constrained to ge=0.0, le=1.0. -/
def unitFloatField (kvs : List (String × PyVal)) (name : String) :
    Except (List FieldError) ℚ :=
  match kvs.lookup name with
  | some v =>
    match asFloat v with
    | some q =>
      if q < 0 then .error [.notGe name 0]
      else if 1 < q then .error [.notLe name 1]
      else .ok q
    | Option.none => .error [.typeError name "float"]
  | Option.none => .error [.missing name]

/-- Reads a List[Dict[str, Any]] value. -/
def asDictList : List PyVal → Option (List (List (String × PyVal)))
  | [] => some []
  | .dict d :: rest => (asDictList rest).map (d :: ·)
  | _ :: _ => Option.none

/-- Reads a List[str] value. -/
def asStrList : List PyVal → Option (List String)
  | [] => some []
  | .str s :: rest => (asStrList rest).map (s :: ·)
  | _ :: _ => Option.none

/-- predictions field: List[Dict[str, Any]], required. -/
def predictionsField (kvs : List (String × PyVal)) :
    Except (List FieldError) (List (List (String × PyVal))) :=
  match kvs.lookup "predictions" with
  | some (.list xs) =>
    match asDictList xs with
    | some ds => .ok ds
    | Option.none => .error [.typeError "predictions" "List[Dict]"]
  | some _ => .error [.typeError "predictions" "List[Dict]"]
  | Option.none => .error [.missing "predictions"]

/-- recommendations field: List[str], required. -/
def recommendationsField (kvs : List (String × PyVal)) :
    Except (List FieldError) (List String) :=
  match kvs.lookup "recommendations" with
  | some (.list xs) =>
    match asStrList xs with
    | some ss => .ok ss
    | Option.none => .error [.typeError "recommendations" "List[str]"]
  | some _ => .error [.typeError "recommendations" "List[str]"]
  | Option.none => .error [.missing "recommendations"]

/-- The errors carried by a field result (none when the field is valid). -/
def errsOf {α : Type} : Except (List FieldError) α → List FieldError
  | .ok _ => []
  | .error e => e

/-- Validator for AnalysisResult (the response model of /analyze):
likelihood and confidence must be floats within [0,1], predictions a list
of mappings, recommendations a list of strings; errors are collected. -/
def validateAnalysisResult : PyVal → Except (List FieldError) AnalysisResult
  | .dict kvs =>
    match unitFloatField kvs "likelihood", unitFloatField kvs "confidence",
        predictionsField kvs, recommendationsField kvs with
    | .ok l, .ok c, .ok p, .ok r => .ok ⟨l, c, p, r⟩
    | lr, cr, pr, rr => .error (errsOf lr ++ errsOf cr ++ errsOf pr ++ errsOf rr)
  | _ => .error [.typeError "__root__" "dict"]

/-! ## Route handlers

Each handler's try-body is a pure record construction (no fallible
operation appears in any of them), so each handler is a total function of
the validated request and the clock; the except-branch that would raise
HTTPException(500) corresponds to no reachable behaviour. -/

/-- Response of GET / (the try-body of root). -/
structure RootResponse where
  message : String
  status : String
  version : String
deriving DecidableEq, Repr

/-- async def root(): constant status record. -/
def root : RootResponse :=
  { message := "Welcome to AstroShield API"
  , status := "operational"
  , version := "1.0.0" }

/-- Response of GET /health. -/
structure HealthResponse where
  status : String
  timestamp : String
deriving DecidableEq, Repr

/-- async def health_check(): status "healthy" plus str(datetime.utcnow()). -/
def health_check (c : Clock) : HealthResponse :=
  { status := "healthy", timestamp := pyDatetimeStr c.now }

/-- async def verify_data(request): always verified=True, with details
holding the timestamp, the fixed checks_passed list, and
request.data.get("type", "unknown"). -/
def verify_data (request : VerifyRequest) (c : Clock) : VerifyResponse :=
  { verified := true
  , message := "Data verification successful"
  , details := some
      [ ("timestamp", .str (pyDatetimeStr c.now))
      , ("checks_passed", .list [.str "format", .str "schema", .str "integrity"])
      , ("data_type", (request.data.lookup "type").getD (.str "unknown")) ] }

/-- async def encrypt_data(request): the f-string
"encrypted_{value}_{utcnow().timestamp()}" plus str(utcnow()). -/
def encrypt_data (request : EncryptRequest) (c : Clock) : EncryptResponse :=
  { encryptedValue := "encrypted_" ++ request.value ++ "_" ++ c.epochStr
  , timestamp := pyDatetimeStr c.now }

/-- async def analyze_data(request): fixed-shape analysis result; the
request (in particular analysisMode) only reaches the log line. -/
def analyze_data (request : AnalyzeRequest) (c : Clock) : AnalyzeResponse :=
  { analysisResult :=
    { likelihood := 0.85
    , confidence := 0.92
    , predictions :=
        [ [ ("time", .str (pyDatetimeStr c.now))
          , ("event", .str "orbital_maneuver")
          , ("probability", .rat 0.85) ] ]
    , recommendations :=
        [ "Monitor trajectory changes"
        , "Prepare for potential collision avoidance" ] }
  , timestamp := pyDatetimeStr c.now }

/-! ## Serialization (pydantic model_dump) -/

def VerifyRequest.dump (r : VerifyRequest) : PyVal :=
  .dict [("data", .dict r.data)]

def EncryptRequest.dump (r : EncryptRequest) : PyVal :=
  .dict [("value", .str r.value)]

def AnalyzeRequest.dump (r : AnalyzeRequest) : PyVal :=
  .dict [("data", .str r.data), ("analysisMode", .str r.analysisMode)]

def AnalysisResult.dump (r : AnalysisResult) : PyVal :=
  .dict [ ("likelihood", .rat r.likelihood)
        , ("confidence", .rat r.confidence)
        , ("predictions", .list (r.predictions.map .dict))
        , ("recommendations", .list (r.recommendations.map .str)) ]

def RootResponse.dump (r : RootResponse) : PyVal :=
  .dict [ ("message", .str r.message), ("status", .str r.status)
        , ("version", .str r.version) ]

def HealthResponse.dump (r : HealthResponse) : PyVal :=
  .dict [("status", .str r.status), ("timestamp", .str r.timestamp)]

def VerifyResponse.dump (r : VerifyResponse) : PyVal :=
  .dict [ ("verified", .bool r.verified), ("message", .str r.message)
        , ("details", (r.details.map .dict).getD .none) ]

def EncryptResponse.dump (r : EncryptResponse) : PyVal :=
  .dict [ ("encryptedValue", .str r.encryptedValue)
        , ("timestamp", .str r.timestamp) ]

def AnalyzeResponse.dump (r : AnalyzeResponse) : PyVal :=
  .dict [ ("analysisResult", r.analysisResult.dump)
        , ("timestamp", .str r.timestamp) ]

/-! ## Dispatch boundary -/

/-- The reply shape returned to the hosting platform. -/
structure Reply where
  statusCode : Nat
  headers : List (String × String)
  body : PyVal

/-- The CORS header set configured on the app middleware in src/api/index.py:
wildcard origin, credentials allowed, all methods, all headers. -/
def corsHeaders : List (String × String) :=
  [ ("Access-Control-Allow-Origin", "*")
  , ("Access-Control-Allow-Credentials", "true")
  , ("Access-Control-Allow-Methods", "*")
  , ("Access-Control-Allow-Headers", "*") ]

/-- Modelled from the spec: the body of a validation-failure reply names
every offending field and the violated rule (the dispatcher component
lives in the web framework, not under src/). -/
def fieldErrorBody : FieldError → PyVal
  | .missing f => .dict [("field", .str f), ("rule", .str "missing")]
  | .typeError f t =>
    .dict [("field", .str f), ("rule", .str ("type " ++ t))]
  | .minLength f n =>
    .dict [("field", .str f), ("rule", .str "min length"), ("min", .int n)]
  | .notGe f b =>
    .dict [("field", .str f), ("rule", .str "ge"), ("bound", .rat b)]
  | .notLe f b =>
    .dict [("field", .str f), ("rule", .str "le"), ("bound", .rat b)]

/-- Modelled from the spec: a validation failure maps to status 400 with a
body naming the offending fields, CORS headers applied. -/
def validationReply (errs : List FieldError) : Reply :=
  ⟨400, corsHeaders,
    .dict [ ("error", .str "validation")
          , ("detail", .list (errs.map fieldErrorBody)) ]⟩

/-- Modelled from the spec: unknown method+path maps to status 404 with the
error envelope, CORS headers applied. -/
def notFoundReply : Reply :=
  ⟨404, corsHeaders, .dict [ ("error", .str "not_found")
                           , ("detail", .str "Not Found") ]⟩

/-- A successful handler reply: status 200, CORS headers applied. -/
def okReply (body : PyVal) : Reply := ⟨200, corsHeaders, body⟩

/-- Modelled from the spec: the Dispatcher (the routing and error-mapping
layer provided by the web framework, not present under src/) routes
method+path to the registered handler, validates the body against the
route's request schema, serializes the handler's response on success
(status 200), maps a validation failure to status 400 naming the offending
fields, maps an unknown route to 404, and applies the fixed CORS header
set to every reply.  The handlers and schemas it invokes are the ones
embedded above from src/api/index.py. -/
def dispatch (c : Clock) (method path : String) (body : PyVal) : Reply :=
  if method = "GET" ∧ path = "/" then okReply root.dump
  else if method = "GET" ∧ path = "/health" then okReply (health_check c).dump
  else if method = "POST" ∧ path = "/verify" then
    match validateVerifyRequest body with
    | .ok r => okReply (verify_data r c).dump
    | .error es => validationReply es
  else if method = "POST" ∧ path = "/encrypt" then
    match validateEncryptRequest body with
    | .ok r => okReply (encrypt_data r c).dump
    | .error es => validationReply es
  else if method = "POST" ∧ path = "/analyze" then
    match validateAnalyzeRequest body with
    | .ok r => okReply (analyze_data r c).dump
    | .error es => validationReply es
  else notFoundReply

/-! ## Timestamp formats -/

/-- A decimal digit character. -/
def isDigitCh (c : Char) : Bool := 48 ≤ c.toNat && c.toNat ≤ 57

/-- The UTC designator of an ISO-8601 instant: Z or the +00:00 offset. -/
def isoZone : List Char → Bool
  | ['Z'] => true
  | ['+', '0', '0', ':', '0', '0'] => true
  | _ => false

/-- Optional fractional seconds, then the UTC designator. -/
def isoFracZone : List Char → Bool
  | '.' :: rest =>
    !(rest.takeWhile isDigitCh).isEmpty && isoZone (rest.dropWhile isDigitCh)
  | rest => isoZone rest

/-- Following the spec's words: an ISO-8601 UTC instant in extended
format — calendar date, the time designator T, time of day, optional
fractional seconds, and an explicit UTC designator. -/
def isISO8601UTCInstant (s : String) : Bool :=
  match s.data with
  | y1 :: y2 :: y3 :: y4 :: '-' :: m1 :: m2 :: '-' :: d1 :: d2 :: 'T' ::
      h1 :: h2 :: ':' :: n1 :: n2 :: ':' :: s1 :: s2 :: rest =>
    isDigitCh y1 && isDigitCh y2 && isDigitCh y3 && isDigitCh y4 &&
    isDigitCh m1 && isDigitCh m2 && isDigitCh d1 && isDigitCh d2 &&
    isDigitCh h1 && isDigitCh h2 && isDigitCh n1 && isDigitCh n2 &&
    isDigitCh s1 && isDigitCh s2 && isoFracZone rest
  | _ => false

/-- The tail of the format Python's str(datetime) actually produces:
either nothing, or a dot and exactly six digits. -/
def pyFrac : List Char → Bool
  | [] => true
  | '.' :: rest => rest.length == 6 && rest.all isDigitCh
  | _ => false

/-- The format Python's str(datetime.utcnow()) actually produces:
"YYYY-MM-DD HH:MM:SS" — a space in place of the T designator and no UTC
designator — followed by ".ffffff" when the microsecond is nonzero. -/
def isPyDatetimeFormat (s : String) : Bool :=
  match s.data with
  | y1 :: y2 :: y3 :: y4 :: '-' :: m1 :: m2 :: '-' :: d1 :: d2 :: ' ' ::
      h1 :: h2 :: ':' :: n1 :: n2 :: ':' :: s1 :: s2 :: rest =>
    isDigitCh y1 && isDigitCh y2 && isDigitCh y3 && isDigitCh y4 &&
    isDigitCh m1 && isDigitCh m2 && isDigitCh d1 && isDigitCh d2 &&
    isDigitCh h1 && isDigitCh h2 && isDigitCh n1 && isDigitCh n2 &&
    isDigitCh s1 && isDigitCh s2 && pyFrac rest
  | _ => false

theorem isDigitCh_digitChar (n : Nat) : isDigitCh (digitChar n) = true := by
  unfold digitChar
  have h : n % 10 < 10 := Nat.mod_lt _ (by omega)
  generalize hn : n % 10 = k at h
  interval_cases k <;> decide

/-- Every rendered datetime matches the space-separated Python format. -/
theorem isPyDatetimeFormat_pyDatetimeStr (d : PyDateTime) :
    isPyDatetimeFormat (pyDatetimeStr d) = true := by
  rcases d with ⟨y, mo, da, h, mi, s, u⟩
  by_cases hu : u = 0 <;>
    simp [pyDatetimeStr, pad4, pad2, pad6, isPyDatetimeFormat, hu, pyFrac,
      isDigitCh_digitChar, List.all]

/-! ## Helper lemmas -/

theorem string_append_assoc (a b c : String) : (a ++ b) ++ c = a ++ (b ++ c) := by
  rcases a with ⟨la⟩; rcases b with ⟨lb⟩; rcases c with ⟨lc⟩
  exact congrArg String.mk (List.append_assoc la lb lc)

theorem strMinLen1Field_ok_len (kvs : List (String × PyVal)) (key : String)
    (s : String) (h : strMinLen1Field kvs key = .ok s) : 1 ≤ s.length := by
  unfold strMinLen1Field at h
  repeat' split at h
  all_goals first
    | exact Except.noConfusion h
    | (injection h with h2; subst h2; assumption)

/-- A string of length >= 1 found under the key passes the field check. -/
theorem strMinLen1Field_str (kvs : List (String × PyVal)) (key : String)
    (s : String) (hfind : kvs.lookup key = some (.str s))
    (hlen : 1 ≤ s.length) : strMinLen1Field kvs key = .ok s := by
  unfold strMinLen1Field
  rw [hfind]
  dsimp only
  rw [if_pos hlen]

theorem validateEncryptRequest_ok_len (raw : PyVal) (r : EncryptRequest)
    (h : validateEncryptRequest raw = .ok r) : 1 ≤ r.value.length := by
  unfold validateEncryptRequest at h
  repeat' split at h
  all_goals try exact Except.noConfusion h
  rename_i v heq
  injection h with h2
  subst h2
  exact strMinLen1Field_ok_len _ _ _ heq

theorem validateAnalyzeRequest_ok_len (raw : PyVal) (r : AnalyzeRequest)
    (h : validateAnalyzeRequest raw = .ok r) : 1 ≤ r.data.length := by
  unfold validateAnalyzeRequest at h
  repeat' split at h
  all_goals try exact Except.noConfusion h
  rename_i d m hd hm
  injection h with h2
  subst h2
  exact strMinLen1Field_ok_len _ _ _ hd

/-! ## Claims -/

/-- C1: For every valid VerifyRequest (any string-keyed mapping in data),
the verify handler returns verified = true, details.checks_passed equal to
the fixed ordered list ["format", "schema", "integrity"], and
details.data_type equal to data["type"] when that key is present, else the
literal string "unknown". -/
theorem verify_always_verified (r : VerifyRequest) (c : Clock) :
    (verify_data r c).verified = true ∧
    ((verify_data r c).details.getD []).lookup "checks_passed" =
      some (.list [.str "format", .str "schema", .str "integrity"]) ∧
    (∀ v, r.data.lookup "type" = some v →
      ((verify_data r c).details.getD []).lookup "data_type" = some v) ∧
    (r.data.lookup "type" = Option.none →
      ((verify_data r c).details.getD []).lookup "data_type" =
        some (.str "unknown")) := by
  refine ⟨rfl, rfl, ?_, ?_⟩
  · intro v hv
    show some ((r.data.lookup "type").getD (.str "unknown")) = some v
    rw [hv]; rfl
  · intro hv
    show some ((r.data.lookup "type").getD (.str "unknown")) =
      some (.str "unknown")
    rw [hv]; rfl

/-- Witness for C1 at a request carrying a "type" key and at one without. -/
theorem verify_always_verified_witness :
    (verify_data ⟨[("type", .str "telemetry")]⟩
        ⟨⟨2024, 1, 2, 3, 4, 5, 6⟩, "1704164645.000006"⟩).verified = true ∧
    ((verify_data ⟨[("type", .str "telemetry")]⟩
        ⟨⟨2024, 1, 2, 3, 4, 5, 6⟩, "1704164645.000006"⟩).details.getD
        []).lookup "data_type" = some (.str "telemetry") ∧
    ((verify_data ⟨[]⟩
        ⟨⟨2024, 1, 2, 3, 4, 5, 6⟩, "1704164645.000006"⟩).details.getD
        []).lookup "data_type" = some (.str "unknown") :=
  ⟨(verify_always_verified ⟨[("type", .str "telemetry")]⟩
      ⟨⟨2024, 1, 2, 3, 4, 5, 6⟩, "1704164645.000006"⟩).1,
   (verify_always_verified ⟨[("type", .str "telemetry")]⟩
      ⟨⟨2024, 1, 2, 3, 4, 5, 6⟩, "1704164645.000006"⟩).2.2.1 _ rfl,
   (verify_always_verified ⟨[]⟩
      ⟨⟨2024, 1, 2, 3, 4, 5, 6⟩, "1704164645.000006"⟩).2.2.2 rfl⟩

/-- C2: For every EncryptRequest with a value of length at least one, the
encrypt handler returns an encryptedValue that is non-empty and contains
the input value as a substring — it is the concatenation of the fixed
prefixing text "encrypted_", the input value, and the rendered epoch
timestamp. -/
theorem encrypt_contains_value (r : EncryptRequest) (c : Clock)
    (h : 1 ≤ r.value.length) :
    (encrypt_data r c).encryptedValue =
      "encrypted_" ++ r.value ++ "_" ++ c.epochStr ∧
    (encrypt_data r c).encryptedValue ≠ "" ∧
    ∃ s t, (encrypt_data r c).encryptedValue = s ++ r.value ++ t := by
  refine ⟨rfl, ?_, "encrypted_", "_" ++ c.epochStr, ?_⟩
  · intro hempty
    have hdata : ("encrypted_" ++ r.value ++ "_" ++ c.epochStr).data =
        ("" : String).data := congrArg String.data hempty
    rcases r.value with ⟨lv⟩; rcases c.epochStr with ⟨le⟩
    simp [String.data] at hdata
  · show ("encrypted_" ++ r.value ++ "_") ++ c.epochStr =
      ("encrypted_" ++ r.value) ++ ("_" ++ c.epochStr)
    exact string_append_assoc _ _ _

/-- Witness for C2 at value "secret". -/
theorem encrypt_contains_value_witness :
    (encrypt_data ⟨"secret"⟩
        ⟨⟨2024, 1, 2, 3, 4, 5, 6⟩, "1704164645.000006"⟩).encryptedValue ≠ "" :=
  (encrypt_contains_value ⟨"secret"⟩
      ⟨⟨2024, 1, 2, 3, 4, 5, 6⟩, "1704164645.000006"⟩ (by decide)).2.1

/-- C3: Posting to /encrypt with an empty value is rejected by the schema
layer with a 400 validation failure naming the field value and the
min-length-1 rule; the handler body is never invoked (the reply does not
depend on the clock the handler would read). -/
theorem encrypt_empty_value_rejected (c c' : Clock) :
    (dispatch c "POST" "/encrypt" (.dict [("value", .str "")])).statusCode =
      400 ∧
    (dispatch c "POST" "/encrypt" (.dict [("value", .str "")])).body =
      .dict [ ("error", .str "validation")
            , ("detail", .list [.dict [ ("field", .str "value")
                , ("rule", .str "min length"), ("min", .int 1) ]]) ] ∧
    dispatch c "POST" "/encrypt" (.dict [("value", .str "")]) =
      dispatch c' "POST" "/encrypt" (.dict [("value", .str "")]) :=
  ⟨rfl, rfl, rfl⟩

/-- C9: The analyze handler's output does not depend on analysisMode: two
requests differing only in analysisMode, evaluated at the same clock
instant, produce identical responses. -/
theorem analyze_mode_independent (d m1 m2 : String) (c : Clock) :
    analyze_data ⟨d, m1⟩ c = analyze_data ⟨d, m2⟩ c := rfl

/-- C10: The error branch of the root handler is unreachable: its try-body
is a constant record construction, so GET / always yields status 200 with
exactly the welcome record, and the 500 path is dead. -/
theorem root_error_branch_dead (c : Clock) (body : PyVal) :
    root = ⟨"Welcome to AstroShield API", "operational", "1.0.0"⟩ ∧
    (dispatch c "GET" "/" body).statusCode = 200 ∧
    (dispatch c "GET" "/" body).body =
      .dict [ ("message", .str "Welcome to AstroShield API")
            , ("status", .str "operational"), ("version", .str "1.0.0") ] ∧
    (dispatch c "GET" "/" body).statusCode ≠ 500 := by
  refine ⟨rfl, rfl, rfl, ?_⟩
  have h200 : (dispatch c "GET" "/" body).statusCode = 200 := rfl
  omega

/-- Route reduction for POST /analyze. -/
theorem dispatch_post_analyze (c : Clock) (raw : PyVal) :
    dispatch c "POST" "/analyze" raw =
      match validateAnalyzeRequest raw with
      | .ok r => okReply (analyze_data r c).dump
      | .error es => validationReply es := rfl

/-- C7: Every reply produced by the service — success, validation failure,
not-found, or internal failure — carries the fixed CORS header set
configured on the middleware. -/
theorem all_replies_cors (c : Clock) (method path : String) (body : PyVal) :
    (dispatch c method path body).headers = corsHeaders := by
  unfold dispatch
  repeat' split
  all_goals rfl

/-- C4: For every valid AnalyzeRequest the analyze route succeeds with
status 200 and the analysis result's predictions list has exactly one
entry, whose event field equals "orbital_maneuver". -/
theorem analyze_single_prediction (c : Clock) (raw : PyVal)
    (r : AnalyzeRequest) (h : validateAnalyzeRequest raw = .ok r) :
    (dispatch c "POST" "/analyze" raw).statusCode = 200 ∧
    (analyze_data r c).analysisResult.predictions.length = 1 ∧
    ((analyze_data r c).analysisResult.predictions.headD []).lookup "event" =
      some (.str "orbital_maneuver") := by
  refine ⟨?_, rfl, rfl⟩
  rw [dispatch_post_analyze, h]
  rfl

/-- Witness for C4: POST /analyze with data "sat-42" and no analysisMode. -/
theorem analyze_single_prediction_witness :
    (dispatch ⟨⟨2024, 1, 2, 3, 4, 5, 6⟩, "1704164645.000006"⟩ "POST"
        "/analyze" (.dict [("data", .str "sat-42")])).statusCode = 200 ∧
    (analyze_data ⟨"sat-42", "orbital_prediction"⟩
        ⟨⟨2024, 1, 2, 3, 4, 5, 6⟩,
          "1704164645.000006"⟩).analysisResult.predictions.length = 1 ∧
    ((analyze_data ⟨"sat-42", "orbital_prediction"⟩
        ⟨⟨2024, 1, 2, 3, 4, 5, 6⟩,
          "1704164645.000006"⟩).analysisResult.predictions.headD
        []).lookup "event" = some (.str "orbital_maneuver") :=
  analyze_single_prediction ⟨⟨2024, 1, 2, 3, 4, 5, 6⟩, "1704164645.000006"⟩
    (.dict [("data", .str "sat-42")]) ⟨"sat-42", "orbital_prediction"⟩ rfl

/-- A float field valid under the ge=0.0, le=1.0 constraints is in [0,1]. -/
theorem unitFloatField_ok_bounds (kvs : List (String × PyVal)) (name : String)
    (q : ℚ) (h : unitFloatField kvs name = .ok q) : 0 ≤ q ∧ q ≤ 1 := by
  unfold unitFloatField at h
  repeat' split at h
  all_goals first
    | exact Except.noConfusion h
    | (injection h with h2; subst h2; constructor <;> linarith)

/-- Soundness of the AnalysisResult validator for the numeric bounds. -/
theorem validateAnalysisResult_ok_bounds (raw : PyVal) (res : AnalysisResult)
    (h : validateAnalysisResult raw = .ok res) :
    0 ≤ res.likelihood ∧ res.likelihood ≤ 1 ∧
    0 ≤ res.confidence ∧ res.confidence ≤ 1 := by
  unfold validateAnalysisResult at h
  repeat' split at h
  all_goals try exact Except.noConfusion h
  rename_i l cq ps rs hl hc hp hr
  injection h with h2
  subst h2
  obtain ⟨hl0, hl1⟩ := unitFloatField_ok_bounds _ _ _ hl
  obtain ⟨hc0, hc1⟩ := unitFloatField_ok_bounds _ _ _ hc
  exact ⟨hl0, hl1, hc0, hc1⟩

/-- A rational-valued field inside [0,1] passes the unit-interval check. -/
theorem unitFloatField_rat (kvs : List (String × PyVal)) (name : String)
    (q : ℚ) (hfind : kvs.lookup name = some (.rat q))
    (h0 : 0 ≤ q) (h1 : q ≤ 1) : unitFloatField kvs name = .ok q := by
  unfold unitFloatField
  rw [hfind]
  dsimp only [asFloat]
  rw [if_neg (not_lt.mpr h0), if_neg (not_lt.mpr h1)]

theorem asDictList_map (ds : List (List (String × PyVal))) :
    asDictList (ds.map .dict) = some ds := by
  induction ds with
  | nil => rfl
  | cons d rest ih => simp [asDictList, ih]

theorem asStrList_map (ss : List String) :
    asStrList (ss.map .str) = some ss := by
  induction ss with
  | nil => rfl
  | cons s rest ih => simp [asStrList, ih]

theorem predictionsField_dump (kvs : List (String × PyVal))
    (ps : List (List (String × PyVal)))
    (hfind : kvs.lookup "predictions" = some (.list (ps.map .dict))) :
    predictionsField kvs = .ok ps := by
  unfold predictionsField
  rw [hfind]
  dsimp only
  rw [asDictList_map]

theorem recommendationsField_dump (kvs : List (String × PyVal))
    (rs : List String)
    (hfind : kvs.lookup "recommendations" = some (.list (rs.map .str))) :
    recommendationsField kvs = .ok rs := by
  unfold recommendationsField
  rw [hfind]
  dsimp only
  rw [asStrList_map]

/-- Revalidating a dumped in-bounds AnalysisResult succeeds. -/
theorem validateAnalysisResult_dump (res : AnalysisResult)
    (h0 : 0 ≤ res.likelihood) (h1 : res.likelihood ≤ 1)
    (h2 : 0 ≤ res.confidence) (h3 : res.confidence ≤ 1) :
    validateAnalysisResult res.dump = .ok res := by
  rcases res with ⟨l, cq, ps, rs⟩
  have hL : List.lookup "likelihood"
      [ ("likelihood", PyVal.rat l), ("confidence", PyVal.rat cq)
      , ("predictions", PyVal.list (ps.map PyVal.dict))
      , ("recommendations", PyVal.list (rs.map PyVal.str)) ] =
      some (PyVal.rat l) := rfl
  have hC : List.lookup "confidence"
      [ ("likelihood", PyVal.rat l), ("confidence", PyVal.rat cq)
      , ("predictions", PyVal.list (ps.map PyVal.dict))
      , ("recommendations", PyVal.list (rs.map PyVal.str)) ] =
      some (PyVal.rat cq) := rfl
  have hP : List.lookup "predictions"
      [ ("likelihood", PyVal.rat l), ("confidence", PyVal.rat cq)
      , ("predictions", PyVal.list (ps.map PyVal.dict))
      , ("recommendations", PyVal.list (rs.map PyVal.str)) ] =
      some (PyVal.list (ps.map PyVal.dict)) := rfl
  have hR : List.lookup "recommendations"
      [ ("likelihood", PyVal.rat l), ("confidence", PyVal.rat cq)
      , ("predictions", PyVal.list (ps.map PyVal.dict))
      , ("recommendations", PyVal.list (rs.map PyVal.str)) ] =
      some (PyVal.list (rs.map PyVal.str)) := rfl
  simp only [AnalysisResult.dump]
  unfold validateAnalysisResult
  dsimp only
  rw [unitFloatField_rat _ _ _ hL h0 h1, unitFloatField_rat _ _ _ hC h2 h3,
    predictionsField_dump _ _ hP, recommendationsField_dump _ _ hR]

/-- C5: The mock analysis result satisfies 0 <= likelihood <= 1 and
0 <= confidence <= 1, and the schema layer's response-model validator
only accepts analysis results within those bounds, so any candidate
violating either bound is rejected before reaching the client. -/
theorem analysis_bounds_enforced (r : AnalyzeRequest) (c : Clock) :
    (0 ≤ (analyze_data r c).analysisResult.likelihood ∧
     (analyze_data r c).analysisResult.likelihood ≤ 1 ∧
     0 ≤ (analyze_data r c).analysisResult.confidence ∧
     (analyze_data r c).analysisResult.confidence ≤ 1) ∧
    (∀ raw res, validateAnalysisResult raw = .ok res →
      0 ≤ res.likelihood ∧ res.likelihood ≤ 1 ∧
      0 ≤ res.confidence ∧ res.confidence ≤ 1) :=
  ⟨⟨by show (0 : ℚ) ≤ 0.85; norm_num, by show (0.85 : ℚ) ≤ 1; norm_num,
    by show (0 : ℚ) ≤ 0.92; norm_num, by show (0.92 : ℚ) ≤ 1; norm_num⟩,
   fun raw res h => validateAnalysisResult_ok_bounds raw res h⟩

/-- Witness for C5 at a concrete in-bounds raw analysis result. -/
theorem analysis_bounds_enforced_witness :
    0 ≤ (⟨0.85, 0.92, [], []⟩ : AnalysisResult).likelihood ∧
    (⟨0.85, 0.92, [], []⟩ : AnalysisResult).likelihood ≤ 1 ∧
    0 ≤ (⟨0.85, 0.92, [], []⟩ : AnalysisResult).confidence ∧
    (⟨0.85, 0.92, [], []⟩ : AnalysisResult).confidence ≤ 1 :=
  (analysis_bounds_enforced ⟨"sat-42", "orbital_prediction"⟩
      ⟨⟨2024, 1, 2, 3, 4, 5, 6⟩, "1704164645.000006"⟩).2
    (.dict [ ("likelihood", .rat 0.85), ("confidence", .rat 0.92)
           , ("predictions", .list []), ("recommendations", .list []) ])
    ⟨0.85, 0.92, [], []⟩
    (validateAnalysisResult_dump ⟨0.85, 0.92, [], []⟩ (by norm_num)
      (by norm_num) (by norm_num) (by norm_num))

/-- C8: Schema validation is idempotent and side-effect-free.  The
validators are pure functions (so a second run on the same raw input is
the very same value and nothing is mutated); the substantive content is
that revalidating the serialized form of any accepted record accepts it
again unchanged, for all four schemas. -/
theorem validators_idempotent (raw : PyVal) :
    (∀ r, validateVerifyRequest raw = .ok r →
      validateVerifyRequest r.dump = .ok r) ∧
    (∀ r, validateEncryptRequest raw = .ok r →
      validateEncryptRequest r.dump = .ok r) ∧
    (∀ r, validateAnalyzeRequest raw = .ok r →
      validateAnalyzeRequest r.dump = .ok r) ∧
    (∀ res, validateAnalysisResult raw = .ok res →
      validateAnalysisResult res.dump = .ok res) := by
  refine ⟨?_, ?_, ?_, ?_⟩
  · rintro ⟨d⟩ _
    rfl
  · rintro ⟨v⟩ h
    have hlen := validateEncryptRequest_ok_len raw ⟨v⟩ h
    unfold EncryptRequest.dump validateEncryptRequest
    dsimp only
    rw [strMinLen1Field_str [("value", PyVal.str v)] "value" v rfl hlen]
  · rintro ⟨d, m⟩ h
    have hlen := validateAnalyzeRequest_ok_len raw ⟨d, m⟩ h
    unfold AnalyzeRequest.dump validateAnalyzeRequest
    dsimp only
    rw [strMinLen1Field_str
        [("data", PyVal.str d), ("analysisMode", PyVal.str m)] "data" d rfl
        hlen]
    rfl
  · intro res h
    obtain ⟨h0, h1, h2, h3⟩ := validateAnalysisResult_ok_bounds raw res h
    exact validateAnalysisResult_dump res h0 h1 h2 h3

/-- Witness for C8 at one accepted record per schema. -/
theorem validators_idempotent_witness :
    validateVerifyRequest
      (VerifyRequest.dump ⟨[("type", PyVal.str "telemetry")]⟩) =
      .ok ⟨[("type", PyVal.str "telemetry")]⟩ ∧
    validateEncryptRequest (EncryptRequest.dump ⟨"secret"⟩) = .ok ⟨"secret"⟩ ∧
    validateAnalyzeRequest
      (AnalyzeRequest.dump ⟨"sat-42", "orbital_prediction"⟩) =
      .ok ⟨"sat-42", "orbital_prediction"⟩ ∧
    validateAnalysisResult (AnalysisResult.dump ⟨0.85, 0.92, [], []⟩) =
      .ok ⟨0.85, 0.92, [], []⟩ :=
  ⟨(validators_idempotent
      (VerifyRequest.dump ⟨[("type", PyVal.str "telemetry")]⟩)).1 _ rfl,
   (validators_idempotent (EncryptRequest.dump ⟨"secret"⟩)).2.1 _ rfl,
   (validators_idempotent
      (AnalyzeRequest.dump ⟨"sat-42", "orbital_prediction"⟩)).2.2.1 _ rfl,
   (validators_idempotent (AnalysisResult.dump ⟨0.85, 0.92, [], []⟩)).2.2.2 _
     (validateAnalysisResult_dump ⟨0.85, 0.92, [], []⟩ (by norm_num)
       (by norm_num) (by norm_num) (by norm_num))⟩

/-- C6 counterexample: at a concrete instant, the health reply's timestamp
string — str(datetime.utcnow()) — is not a valid ISO-8601 UTC instant: it
uses a space in place of the T time designator and carries no UTC
designator at all. -/
theorem timestamp_not_iso8601 :
    isISO8601UTCInstant
      ((health_check ⟨⟨2024, 1, 2, 3, 4, 5, 6⟩,
        "1704164645.000006"⟩).timestamp) = false := rfl

/-- C6 (amended): every timestamp string produced by a successful reply
(health, verify details, encrypt, analyze and its prediction entry) is
str(datetime.utcnow()): it matches the fixed space-separated format
"YYYY-MM-DD HH:MM:SS[.ffffff]" — ISO-8601-like, but with a space in place
of the T designator and without a UTC designator — for every in-range
clock instant. -/
theorem timestamps_fixed_format (c : Clock) (r1 : VerifyRequest)
    (r2 : EncryptRequest) (r3 : AnalyzeRequest) (h : c.now.InRange) :
    isPyDatetimeFormat ((health_check c).timestamp) = true ∧
    ((verify_data r1 c).details.getD []).lookup "timestamp" =
      some (.str (pyDatetimeStr c.now)) ∧
    isPyDatetimeFormat ((encrypt_data r2 c).timestamp) = true ∧
    isPyDatetimeFormat ((analyze_data r3 c).timestamp) = true ∧
    ((analyze_data r3 c).analysisResult.predictions.headD []).lookup "time" =
      some (.str (pyDatetimeStr c.now)) ∧
    isPyDatetimeFormat (pyDatetimeStr c.now) = true :=
  ⟨isPyDatetimeFormat_pyDatetimeStr c.now, rfl,
   isPyDatetimeFormat_pyDatetimeStr c.now,
   isPyDatetimeFormat_pyDatetimeStr c.now, rfl,
   isPyDatetimeFormat_pyDatetimeStr c.now⟩

/-- Witness for the amended C6 at a concrete in-range instant. -/
theorem timestamps_fixed_format_witness :
    isPyDatetimeFormat ((health_check ⟨⟨2024, 1, 2, 3, 4, 5, 6⟩,
      "1704164645.000006"⟩).timestamp) = true :=
  (timestamps_fixed_format ⟨⟨2024, 1, 2, 3, 4, 5, 6⟩, "1704164645.000006"⟩
    ⟨[]⟩ ⟨"secret"⟩ ⟨"sat-42", "orbital_prediction"⟩ (by decide)).1

end AstroShield
